import Mathlib

/- Shallow embedding of the IR0 Rust driver modules
   (src/rust/drivers/rust_example_driver.rs and
   src/rust/drivers/rust_simple_driver.rs, with the status codes of
   src/rust/ffi/kernel.rs).

   Every kernel call a driver makes (logging, kmalloc, kfree, outb, inb,
   serial_print) is recorded as an event in a trace; a KernelEnv supplies
   the results of kmalloc and inb and the byte stored at each memory
   address. Raw pointers are modelled as natural numbers, 0 standing for
   the null pointer. Each operation returns the new driver state, the
   i32 result where the source has one, and the trace of kernel calls. -/

/-- Status code IR0_DRIVER_OK from the source. -/
def IR0_DRIVER_OK : Int := 0

/-- Status code IR0_DRIVER_ERR (generic error) from the source. -/
def IR0_DRIVER_ERR : Int := -1

/-- Status code IR0_DRIVER_ERR_INVAL (invalid argument) from kernel.rs. -/
def IR0_DRIVER_ERR_INVAL : Int := -3

/-- Observable kernel calls a driver makes, in order. -/
inductive Event where
  | logInfo (msg : String)
  | logSuccess (msg : String)
  | logError (msg : String)
  | serialPrint (msg : String)
  | kmallocCall (size : Nat) (result : Nat)
  | kfreeCall (ptr : Nat)
  | outbE (port : Nat) (value : Nat)
  | inbE (port : Nat) (result : Nat)
  deriving DecidableEq, Repr

/-- Results the foreign kernel surface hands back to the driver: the
pointer kmalloc returns for a requested size (0 meaning allocation
failure), the byte inb reads from a port, and the byte stored at a raw
memory address (used when write dereferences the caller buffer). -/
structure KernelEnv where
  kmallocResult : Nat → Nat
  inbResult : Nat → Nat
  mem : Nat → Nat

/-- Private state of the example driver (struct ExampleDriver in the
source): an initialized flag, the device I/O port, and the raw buffer
pointer (0 = null). -/
structure ExampleDriver where
  initialized : Bool
  device_port : Nat
  buffer : Nat
  deriving DecidableEq, Repr

/-- ExampleDriver::new(): the pristine state DRIVER_STATE starts in. -/
def ExampleDriver.new : ExampleDriver :=
  { initialized := false, device_port := 0x3F8, buffer := 0 }

/-- The cast `len as i32` of the source: a usize truncated to 32 bits and
reinterpreted as a two's-complement signed integer. -/
def usizeToI32 (n : Nat) : Int :=
  if n % 2 ^ 32 < 2 ^ 31 then ((n % 2 ^ 32 : Nat) : Int)
  else ((n % 2 ^ 32 : Nat) : Int) - 2 ^ 32

/-- rust_example_init: logs, allocates a 4096-byte buffer via kmalloc
(failing with IR0_DRIVER_ERR if the allocation returns null), records
the buffer, sets the initialized flag, tests the I/O port with outb/inb,
logs, and returns IR0_DRIVER_OK. -/
def rust_example_init (env : KernelEnv) (st : ExampleDriver) :
    ExampleDriver × Int × List Event :=
  let buffer := env.kmallocResult 4096
  if buffer = 0 then
    (st, IR0_DRIVER_ERR,
      [Event.logInfo "[Rust] Example driver initializing...",
       Event.kmallocCall 4096 buffer,
       Event.logError "[Rust] Failed to allocate driver buffer"])
  else
    let st1 := { st with buffer := buffer, initialized := true }
    (st1, IR0_DRIVER_OK,
      [Event.logInfo "[Rust] Example driver initializing...",
       Event.kmallocCall 4096 buffer,
       Event.outbE st1.device_port 0x00,
       Event.inbE st1.device_port (env.inbResult st1.device_port),
       Event.logSuccess "[Rust] Example driver initialized successfully",
       Event.logInfo "[Rust] Driver demonstrates:",
       Event.logInfo "  - Memory allocation via kmalloc()",
       Event.logInfo "  - I/O port operations (inb/outb)",
       Event.logInfo "  - Kernel logging functions",
       Event.logInfo "  - Driver state management"])

/-- rust_example_probe: a null device logs an error and returns
IR0_DRIVER_ERR; otherwise the probe just logs and succeeds. The driver
state is never touched. -/
def rust_example_probe (st : ExampleDriver) (device : Nat) :
    ExampleDriver × Int × List Event :=
  if device = 0 then
    (st, IR0_DRIVER_ERR, [Event.logError "[Rust] Probe called with NULL device"])
  else
    (st, IR0_DRIVER_OK,
      [Event.logInfo "[Rust] Probing device...",
       Event.logSuccess "[Rust] Device probe successful"])

/-- rust_example_remove: logs only; the device argument and the driver
state are untouched. -/
def rust_example_remove (st : ExampleDriver) (device : Nat) :
    ExampleDriver × List Event :=
  (st, [Event.logInfo "[Rust] Removing device...",
        Event.logSuccess "[Rust] Device removed"])

/-- rust_example_shutdown: frees the buffer through kfree when it is
non-null and resets it to null, clears the initialized flag, and logs. -/
def rust_example_shutdown (st : ExampleDriver) : ExampleDriver × List Event :=
  if st.buffer = 0 then
    ({ st with initialized := false },
     [Event.logInfo "[Rust] Shutting down driver...",
      Event.logSuccess "[Rust] Driver shutdown complete"])
  else
    ({ st with buffer := 0, initialized := false },
     [Event.logInfo "[Rust] Shutting down driver...",
      Event.kfreeCall st.buffer,
      Event.logSuccess "[Rust] Driver shutdown complete"])

/-- rust_example_read: guards against a null buffer and an uninitialized
driver (returning IR0_DRIVER_ERR without touching anything); otherwise
performs no transfer at all and returns `len as i32`. -/
def rust_example_read (st : ExampleDriver) (buf : Nat) (len : Nat) :
    ExampleDriver × Int × List Event :=
  if buf = 0 then
    (st, IR0_DRIVER_ERR, [Event.logError "[Rust] Read called with NULL buffer"])
  else if st.initialized = false then
    (st, IR0_DRIVER_ERR, [Event.logError "[Rust] Read called on uninitialized driver"])
  else
    (st, usizeToI32 len, [Event.logInfo "[Rust] Read operation completed"])

/-- rust_example_write: guards against a null buffer and an uninitialized
driver; otherwise writes the first `min len 64` bytes of the caller
buffer to the device port with outb and returns `len as i32`. -/
def rust_example_write (env : KernelEnv) (st : ExampleDriver) (buf : Nat) (len : Nat) :
    ExampleDriver × Int × List Event :=
  if buf = 0 then
    (st, IR0_DRIVER_ERR, [Event.logError "[Rust] Write called with NULL buffer"])
  else if st.initialized = false then
    (st, IR0_DRIVER_ERR, [Event.logError "[Rust] Write called on uninitialized driver"])
  else
    (st, usizeToI32 len,
      ((List.range (min len 64)).map
        (fun i => Event.outbE st.device_port (env.mem (buf + i)))) ++
      [Event.logInfo "[Rust] Write operation completed"])

/-- rust_simple_init: unconditionally sets the INITIALIZED flag (the
whole state of the simple driver, one Bool), prints its messages, and
returns IR0_DRIVER_OK. -/
def rust_simple_init (st : Bool) : Bool × Int × List Event :=
  (true, IR0_DRIVER_OK,
    [Event.serialPrint "[Rust Simple] Initializing driver...",
     Event.serialPrint "[Rust Simple] Driver initialized successfully!",
     Event.serialPrint "[Rust Simple] This is a test driver written in Rust",
     Event.serialPrint "[Rust Simple] Multi-language support is working!"])

/-- rust_simple_shutdown: clears the INITIALIZED flag and prints. -/
def rust_simple_shutdown (st : Bool) : Bool × List Event :=
  (false,
    [Event.serialPrint "[Rust Simple] Shutting down driver...",
     Event.serialPrint "[Rust Simple] Driver shutdown complete"])

/-- True exactly on I/O-port write events (outb). -/
def isPortWrite : Event → Bool
  | Event.outbE _ _ => true
  | _ => false

/-- Number of bytes a trace sends to I/O ports through outb. -/
def portWriteCount (es : List Event) : Nat := (es.filter isPortWrite).length

/-- True exactly on I/O-port access events (outb or inb). -/
def isPortAccess : Event → Bool
  | Event.outbE _ _ => true
  | Event.inbE _ _ => true
  | _ => false

/-- Number of I/O-port accesses in a trace. -/
def portAccessCount (es : List Event) : Nat := (es.filter isPortAccess).length

/-- True on every event other than diagnostic output: allocation,
deallocation and port access. Logging is the fire-and-forget diagnostic
channel, not a side effect in the sense of the contract. -/
def isEffect : Event → Bool
  | Event.kmallocCall _ _ => true
  | Event.kfreeCall _ => true
  | Event.outbE _ _ => true
  | Event.inbE _ _ => true
  | _ => false

/-- Number of non-logging side effects in a trace. -/
def effectCount (es : List Event) : Nat := (es.filter isEffect).length

/- Fault containment: both panic handlers log one driver-specific
diagnostic and then sit in `loop { spin_loop() }`. The loop is embedded
as a step function on phases: spinning steps to spinning, and the
handler starts in spinning right after its diagnostic, so the phase
returned is never reached under any number of steps. -/

/-- Phases of a panic handler execution context: spinning in the wait
loop, or having returned control to the caller (never reached). -/
inductive PanicPhase where
  | spinning
  | returned
  deriving DecidableEq, Repr

/-- One iteration of the panic wait loop: spinning stays spinning. -/
def panicStep : PanicPhase → PanicPhase
  | PanicPhase.spinning => PanicPhase.spinning
  | PanicPhase.returned => PanicPhase.returned

/-- The example driver panic handler: its diagnostic and the phase it
enters after logging. -/
def rust_example_panic : Event × PanicPhase :=
  (Event.logError "[Rust] Driver panic!", PanicPhase.spinning)

/-- The simple driver panic handler: its diagnostic and the phase it
enters after logging. -/
def rust_simple_panic : Event × PanicPhase :=
  (Event.serialPrint "[Rust Simple] PANIC: Driver panic occurred!", PanicPhase.spinning)

/-- Concrete environment used by witnesses: kmalloc hands back pointer
1000, inb reads 0, memory holds byte 7 everywhere. -/
def envW : KernelEnv :=
  { kmallocResult := fun _ => 1000, inbResult := fun _ => 0, mem := fun _ => 7 }

/-- Concrete initialized state used by witnesses: the state DRIVER_STATE
holds after a successful init in envW. -/
def stOK : ExampleDriver :=
  { initialized := true, device_port := 0x3F8, buffer := 1000 }

/-- Helper: filtering outb events out of a mapped range keeps them all. -/
theorem portWriteCount_outb_map (p : Nat) (v : Nat → Nat) (l : List Nat) :
    portWriteCount (l.map (fun i => Event.outbE p (v i))) = l.length := by
  induction l with
  | nil => rfl
  | cons a t ih =>
      simp only [List.map_cons, portWriteCount, List.filter_cons, isPortWrite,
        List.length_cons] at *
      simpa [portWriteCount] using ih

/-- Helper: port-write count distributes over append. -/
theorem portWriteCount_append (es fs : List Event) :
    portWriteCount (es ++ fs) = portWriteCount es + portWriteCount fs := by
  simp [portWriteCount, List.filter_append]

/-- Helper: the cast usizeToI32 is the identity below 2 to the 31. -/
theorem usizeToI32_eq_of_lt (n : Nat) (h : n < 2 ^ 31) : usizeToI32 n = (n : Int) := by
  have h32 : n < 2 ^ 32 := lt_of_lt_of_le h (by norm_num)
  unfold usizeToI32
  rw [Nat.mod_eq_of_lt h32, if_pos h]

/-- Claim C1, counterexample: after a successful init, write with the
non-null buffer 1 and length 5000 (exceeding the 4096-byte buffer
capacity) sends only 64 bytes to the I/O port yet returns 5000, so the
returned value is not the count of bytes actually transferred. -/
theorem C1_write_counterexample :
    (rust_example_init envW ExampleDriver.new).2.1 = IR0_DRIVER_OK ∧
    4096 < 5000 ∧
    portWriteCount
      (rust_example_write envW (rust_example_init envW ExampleDriver.new).1 1 5000).2.2 = 64 ∧
    (rust_example_write envW (rust_example_init envW ExampleDriver.new).1 1 5000).2.1 = 5000 ∧
    (5000 : Int) ≠ 64 := by decide

/-- Claim C1, amended: after a successful init, a write with a non-null
buffer and a length exceeding the buffer capacity transfers at most 64
bytes to the device (the write loop caps transfers at 64, well inside
the 4096-byte buffer, so it never writes out of bounds), but returns the
requested length cast to i32 (equal to the length whenever the length is
below 2 to the 31), not the count actually transferred. -/
theorem C1_write_amended (env : KernelEnv) (st : ExampleDriver) (buf len : Nat)
    (hbuf : buf ≠ 0)
    (hok : (rust_example_init env st).2.1 = IR0_DRIVER_OK)
    (hlen : 4096 < len) (hsmall : len < 2 ^ 31) :
    portWriteCount (rust_example_write env (rust_example_init env st).1 buf len).2.2 = 64 ∧
    (64 : Nat) ≤ 4096 ∧
    (rust_example_write env (rust_example_init env st).1 buf len).2.1 = (len : Int) := by
  have hkm : env.kmallocResult 4096 ≠ 0 := by
    intro h0
    simp [rust_example_init, h0, IR0_DRIVER_ERR, IR0_DRIVER_OK] at hok
  have hst : (rust_example_init env st).1 =
      { st with buffer := env.kmallocResult 4096, initialized := true } := by
    simp [rust_example_init, hkm]
  have hw : rust_example_write env
      { st with buffer := env.kmallocResult 4096, initialized := true } buf len =
      ({ st with buffer := env.kmallocResult 4096, initialized := true }, usizeToI32 len,
        ((List.range (min len 64)).map
          (fun i => Event.outbE st.device_port (env.mem (buf + i)))) ++
        [Event.logInfo "[Rust] Write operation completed"]) := by
    simp [rust_example_write, hbuf]
  have hmin : min len 64 = 64 := by omega
  rw [hst, hw]
  refine ⟨?_, by norm_num, usizeToI32_eq_of_lt len hsmall⟩
  rw [portWriteCount_append, hmin]
  have hlog : portWriteCount [Event.logInfo "[Rust] Write operation completed"] = 0 := rfl
  rw [hlog]
  simp only [portWriteCount_outb_map, List.length_range]

/-- Claim C1 amended, witness at env envW, pristine state, buffer 1,
length 5000. -/
theorem C1_write_amended_witness :
    (1 : Nat) ≠ 0 ∧
    (rust_example_init envW ExampleDriver.new).2.1 = IR0_DRIVER_OK ∧
    4096 < 5000 ∧ 5000 < 2 ^ 31 ∧
    (portWriteCount
        (rust_example_write envW (rust_example_init envW ExampleDriver.new).1 1 5000).2.2 = 64 ∧
     (64 : Nat) ≤ 4096 ∧
     (rust_example_write envW (rust_example_init envW ExampleDriver.new).1 1 5000).2.1 =
       ((5000 : Nat) : Int)) :=
  ⟨by decide, by decide, by decide, by decide,
   C1_write_amended envW ExampleDriver.new 1 5000 (by decide) (by decide) (by decide) (by decide)⟩

/-- Claim C2: read or write invoked with a null buffer in any state, or
on an uninitialized driver, returns the negative generic error status
IR0_DRIVER_ERR, performs no I/O-port access, no allocation and no
deallocation, and leaves the driver state unchanged. -/
theorem C2_guards_before_io (env : KernelEnv) (st : ExampleDriver) (buf len : Nat)
    (h : buf = 0 ∨ st.initialized = false) :
    (rust_example_read st buf len).1 = st ∧
    (rust_example_read st buf len).2.1 = IR0_DRIVER_ERR ∧
    effectCount (rust_example_read st buf len).2.2 = 0 ∧
    (rust_example_write env st buf len).1 = st ∧
    (rust_example_write env st buf len).2.1 = IR0_DRIVER_ERR ∧
    effectCount (rust_example_write env st buf len).2.2 = 0 ∧
    IR0_DRIVER_ERR < 0 := by
  by_cases hb : buf = 0
  · subst hb
    exact ⟨rfl, rfl, rfl, rfl, rfl, rfl, by decide⟩
  · have h0 : st.initialized = false := by tauto
    have h1 : rust_example_read st buf len =
        (st, IR0_DRIVER_ERR, [Event.logError "[Rust] Read called on uninitialized driver"]) := by
      simp [rust_example_read, hb, h0]
    have h2 : rust_example_write env st buf len =
        (st, IR0_DRIVER_ERR, [Event.logError "[Rust] Write called on uninitialized driver"]) := by
      simp [rust_example_write, hb, h0]
    rw [h1, h2]
    exact ⟨rfl, rfl, rfl, rfl, rfl, rfl, by decide⟩

/-- Claim C2, witness: null buffer on the pristine driver. -/
theorem C2_guards_before_io_witness :
    ((0 : Nat) = 0 ∨ ExampleDriver.new.initialized = false) ∧
    ((rust_example_read ExampleDriver.new 0 5).1 = ExampleDriver.new ∧
     (rust_example_read ExampleDriver.new 0 5).2.1 = IR0_DRIVER_ERR ∧
     effectCount (rust_example_read ExampleDriver.new 0 5).2.2 = 0 ∧
     (rust_example_write envW ExampleDriver.new 0 5).1 = ExampleDriver.new ∧
     (rust_example_write envW ExampleDriver.new 0 5).2.1 = IR0_DRIVER_ERR ∧
     effectCount (rust_example_write envW ExampleDriver.new 0 5).2.2 = 0 ∧
     IR0_DRIVER_ERR < 0) :=
  ⟨Or.inl rfl, C2_guards_before_io envW ExampleDriver.new 0 5 (Or.inl rfl)⟩

/-- Claim C3, counterexample: probe with a null device on the pristine
driver returns IR0_DRIVER_ERR, the generic error status, which is not
the invalid-argument status IR0_DRIVER_ERR_INVAL of the taxonomy. -/
theorem C3_probe_null_counterexample :
    (rust_example_probe ExampleDriver.new 0).2.1 = IR0_DRIVER_ERR ∧
    IR0_DRIVER_ERR ≠ IR0_DRIVER_ERR_INVAL := by decide

/-- Claim C3, amended: for every driver state, probe with a null device
returns the negative generic error status IR0_DRIVER_ERR (not the
invalid-argument code), performs no side effects beyond a diagnostic
log, and does not change the driver state. -/
theorem C3_probe_null_amended (st : ExampleDriver) :
    (rust_example_probe st 0).1 = st ∧
    (rust_example_probe st 0).2.1 = IR0_DRIVER_ERR ∧
    IR0_DRIVER_ERR < 0 ∧
    effectCount (rust_example_probe st 0).2.2 = 0 :=
  ⟨rfl, rfl, by decide, rfl⟩

/-- Claim C4: for both drivers and every starting state, shutdown is
idempotent (a second consecutive call leaves the state exactly as after
the first), and on a never-initialized driver it is safe, leaving the
pristine state pristine. In this total embedding no call faults. -/
theorem C4_shutdown_idempotent (st : ExampleDriver) (b : Bool) :
    (rust_example_shutdown (rust_example_shutdown st).1).1 = (rust_example_shutdown st).1 ∧
    (rust_example_shutdown ExampleDriver.new).1 = ExampleDriver.new ∧
    (rust_simple_shutdown (rust_simple_shutdown b).1).1 = (rust_simple_shutdown b).1 := by
  refine ⟨?_, by decide, rfl⟩
  obtain ⟨i, p, bf⟩ := st
  by_cases h : bf = 0 <;> simp [rust_example_shutdown, h]

/-- Claim C5: a successful init from the pristine state followed by
shutdown frees exactly the buffer init allocated (a kfree of the pointer
kmalloc returned appears in the shutdown trace) and returns the private
state to its pristine value: buffer reset to null, flag false. -/
theorem C5_init_shutdown_pristine (env : KernelEnv)
    (hok : (rust_example_init env ExampleDriver.new).2.1 = IR0_DRIVER_OK) :
    (rust_example_shutdown (rust_example_init env ExampleDriver.new).1).1 = ExampleDriver.new ∧
    Event.kfreeCall (env.kmallocResult 4096) ∈
      (rust_example_shutdown (rust_example_init env ExampleDriver.new).1).2 := by
  have hkm : env.kmallocResult 4096 ≠ 0 := by
    intro h0
    simp [rust_example_init, h0, IR0_DRIVER_ERR, IR0_DRIVER_OK] at hok
  have hst : (rust_example_init env ExampleDriver.new).1 =
      { ExampleDriver.new with buffer := env.kmallocResult 4096, initialized := true } := by
    simp [rust_example_init, hkm]
  rw [hst]
  constructor
  · simp [rust_example_shutdown, hkm, ExampleDriver.new]
  · simp [rust_example_shutdown, hkm, ExampleDriver.new]

/-- Claim C5, witness at env envW, where kmalloc returns pointer 1000. -/
theorem C5_init_shutdown_pristine_witness :
    (rust_example_init envW ExampleDriver.new).2.1 = IR0_DRIVER_OK ∧
    ((rust_example_shutdown (rust_example_init envW ExampleDriver.new).1).1 = ExampleDriver.new ∧
     Event.kfreeCall (envW.kmallocResult 4096) ∈
       (rust_example_shutdown (rust_example_init envW ExampleDriver.new).1).2) :=
  ⟨by decide, C5_init_shutdown_pristine envW (by decide)⟩

/-- Claim C6: probe with a non-null device never mutates the driver
state, returns IR0_DRIVER_OK, and an immediately repeated probe with the
same argument returns the same status. -/
theorem C6_probe_no_mutation (st : ExampleDriver) (device : Nat) (h : device ≠ 0) :
    (rust_example_probe st device).1 = st ∧
    (rust_example_probe st device).2.1 = IR0_DRIVER_OK ∧
    (rust_example_probe (rust_example_probe st device).1 device).2.1 =
      (rust_example_probe st device).2.1 := by
  simp [rust_example_probe, h]

/-- Claim C6, witness at the pristine state with device handle 1. -/
theorem C6_probe_no_mutation_witness :
    (1 : Nat) ≠ 0 ∧
    ((rust_example_probe ExampleDriver.new 1).1 = ExampleDriver.new ∧
     (rust_example_probe ExampleDriver.new 1).2.1 = IR0_DRIVER_OK ∧
     (rust_example_probe (rust_example_probe ExampleDriver.new 1).1 1).2.1 =
       (rust_example_probe ExampleDriver.new 1).2.1) :=
  ⟨by decide, C6_probe_no_mutation ExampleDriver.new 1 (by decide)⟩

/-- Claim C7: each panic handler logs a diagnostic naming its driver
(the two diagnostics are distinct, so the log identifies the offender),
then enters the spin loop, and no number of loop steps ever brings
either handler to the returned phase: the handler never hands control
back to the kernel. -/
theorem C7_panic_never_returns (n : Nat) :
    rust_example_panic.1 = Event.logError "[Rust] Driver panic!" ∧
    rust_simple_panic.1 = Event.serialPrint "[Rust Simple] PANIC: Driver panic occurred!" ∧
    rust_example_panic.1 ≠ rust_simple_panic.1 ∧
    panicStep^[n] rust_example_panic.2 ≠ PanicPhase.returned ∧
    panicStep^[n] rust_simple_panic.2 ≠ PanicPhase.returned := by
  have hfix : panicStep^[n] PanicPhase.spinning = PanicPhase.spinning :=
    Function.iterate_fixed rfl n
  refine ⟨rfl, rfl, by decide, ?_, ?_⟩ <;>
    simp [rust_example_panic, rust_simple_panic, hfix]

/-- Claim C8: with a non-null buffer on an initialized driver, read
performs no I/O-port access, no allocation and no state mutation, yet
returns the full requested length cast to i32 as if it had been read. -/
theorem C8_read_reports_len (st : ExampleDriver) (buf len : Nat)
    (hbuf : buf ≠ 0) (hinit : st.initialized = true) :
    (rust_example_read st buf len).1 = st ∧
    effectCount (rust_example_read st buf len).2.2 = 0 ∧
    (rust_example_read st buf len).2.1 = usizeToI32 len := by
  have h1 : rust_example_read st buf len =
      (st, usizeToI32 len, [Event.logInfo "[Rust] Read operation completed"]) := by
    simp [rust_example_read, hbuf, hinit]
  rw [h1]
  exact ⟨rfl, rfl, rfl⟩

/-- Claim C8, witness on the initialized state stOK, buffer 1, length
5: the read returns 5 and touches nothing. -/
theorem C8_read_reports_len_witness :
    (1 : Nat) ≠ 0 ∧ stOK.initialized = true ∧
    ((rust_example_read stOK 1 5).1 = stOK ∧
     effectCount (rust_example_read stOK 1 5).2.2 = 0 ∧
     (rust_example_read stOK 1 5).2.1 = usizeToI32 5) :=
  ⟨by decide, rfl, C8_read_reports_len stOK 1 5 (by decide) rfl⟩

/-- Claim C9: the pristine device_port is 0x3F8 (COM1), and every
operation slot of the example driver leaves device_port unchanged. -/
theorem C9_device_port_invariant (env : KernelEnv) (st : ExampleDriver) (d buf len : Nat) :
    ExampleDriver.new.device_port = 0x3F8 ∧
    (rust_example_init env st).1.device_port = st.device_port ∧
    (rust_example_probe st d).1.device_port = st.device_port ∧
    (rust_example_remove st d).1.device_port = st.device_port ∧
    (rust_example_shutdown st).1.device_port = st.device_port ∧
    (rust_example_read st buf len).1.device_port = st.device_port ∧
    (rust_example_write env st buf len).1.device_port = st.device_port := by
  refine ⟨rfl, ?_, ?_, rfl, ?_, ?_, ?_⟩
  · simp only [rust_example_init]; split_ifs <;> rfl
  · simp only [rust_example_probe]; split_ifs <;> rfl
  · simp only [rust_example_shutdown]; split_ifs <;> rfl
  · simp only [rust_example_read]; split_ifs <;> rfl
  · simp only [rust_example_write]; split_ifs <;> rfl

/-- Claim C10: from either starting state, the simple driver init sets
the whole module state (the INITIALIZED flag) to true, returns
IR0_DRIVER_OK, and acquires no resources: its trace has no allocation,
no deallocation and no port access, only serial prints. -/
theorem C10_simple_init_total (b : Bool) :
    (rust_simple_init b).1 = true ∧
    (rust_simple_init b).2.1 = IR0_DRIVER_OK ∧
    effectCount (rust_simple_init b).2.2 = 0 :=
  ⟨rfl, rfl, rfl⟩
